import Mathlib

/-!
Shallow embedding of the Veracity Python SDK (veracity_platform package):
the Data Fabric access model (`data.py`) and the identity service
(`identity.py`).  Python dicts holding SAS keys are modelled as functions
`String → Option SasKey`; timestamps are modelled as integers; exceptions
are modelled with `Except` over an explicit error type.  Remote HTTP calls
are abstracted as function parameters supplying the remote responses.
-/

namespace Veracity

/-- Exceptions raised by the Python code. -/
inductive PyError where
  | attributeError (msg : String)
  | assertionError (msg : String)
  | runtimeError (msg : String)
  | identityError (msg : String)
  | httpError (status : Nat)
  deriving DecidableEq, Repr

/-- `DataFabricAPI._access_levels` (data.py): the access "level" of one
record, computed from the four privilege attributes with the score vector
`[4, 1, 8, 2]` applied to `(attribute1, attribute2, attribute3, attribute4)`
= (read, write, delete, list). -/
def accessLevel (attribute1 attribute2 attribute3 attribute4 : Bool) : Nat :=
  (if attribute1 then 4 else 0) + (if attribute2 then 1 else 0) +
    (if attribute3 then 8 else 0) + (if attribute4 then 2 else 0)

/-- One access-grant record as returned by `DataFabricAPI.get_accesses_df`
(data.py): the columns used by `get_best_access` and `get_sas_new`. -/
structure Access where
  userId : String
  autoRefreshed : Bool
  keyExpiryTimeUTC : Int
  attribute1 : Bool
  attribute2 : Bool
  attribute3 : Bool
  attribute4 : Bool
  accessSharingId : Option String
  deriving DecidableEq, Repr

/-- The "level" column added by `get_accesses_df` via `_access_levels`. -/
def Access.level (a : Access) : Nat :=
  accessLevel a.attribute1 a.attribute2 a.attribute3 a.attribute4

/-- The row filter of `DataFabricAPI.get_best_access` (data.py):
`mask = autoRefreshed | (expiry >= now)` conjoined with
`userId == me["id"]`. -/
def accessMask (now : Int) (meId : String) (a : Access) : Bool :=
  (a.autoRefreshed || decide (a.keyExpiryTimeUTC ≥ now)) && (a.userId == meId)

/-- `Series.idxmax` over the "level" column: the first row attaining the
maximum level, starting from row `a` followed by `rest`. -/
def idxmaxLevel (a : Access) (rest : List Access) : Access :=
  rest.foldl (fun best x => if best.level < x.level then x else best) a

/-- `DataFabricAPI.get_best_access` (data.py): keep rows passing
`accessMask`, return `None` when none remain, otherwise the row whose
"level" is maximal (`idxmax`). -/
def get_best_access (now : Int) (meId : String) (accesses : List Access) :
    Option Access :=
  match accesses.filter (accessMask now meId) with
  | [] => none
  | a :: rest => some (idxmaxLevel a rest)

/-- One SAS-credential record as stored in `DataFabricAPI.sas_cache`
(data.py `get_sas_new` / `get_sas_cached`). -/
structure SasKey where
  sasKey : String
  sasKeyExpiryTimeUTC : Int
  isKeyExpired : Bool
  autoRefreshed : Bool
  accessId : Option String
  deriving DecidableEq, Repr

/-- The `sas_cache` dict, keyed by resource ID. -/
def SasCache : Type := String → Option SasKey

/-- `self.sas_cache[resourceId] = data` (dict assignment). -/
def sasCacheSet (cache : SasCache) (k : String) (v : SasKey) : SasCache :=
  fun r => if r = k then some v else cache r

/-- `self.sas_cache.pop(resourceId)` (dict removal). -/
def sasCachePop (cache : SasCache) (k : String) : SasCache :=
  fun r => if r = k then none else cache r

/-- `DataFabricAPI.get_sas_cached` (data.py): look the resource up in the
SAS cache; on a hit, return the entry when `not isKeyExpired` and
`now < sasKeyExpiryTimeUTC`, otherwise pop the entry and return `None`.
Returns the result together with the cache state after the call. -/
def get_sas_cached (now : Int) (cache : SasCache) (resourceId : String) :
    Option SasKey × SasCache :=
  match cache resourceId with
  | none => (none, cache)
  | some sas =>
      if !sas.isKeyExpired && decide (now < sas.sasKeyExpiryTimeUTC) then
        (some sas, cache)
      else
        (none, sasCachePop cache resourceId)

/-- `DataFabricAPI.get_sas_new` (data.py): resolve an access-sharing ID
(the explicit `accessId` argument, else `get_best_access(...).get(...)`,
where Python raises `AttributeError` when `get_best_access` returned
`None`), assert the ID is present, then exchange it remotely for a SAS
key (the remote PUT is abstracted as `fetchKey`, returning the HTTP error
status on failure), record the access ID on the result and store it in the
cache. -/
def get_sas_new (now : Int) (meId : String) (accesses : List Access)
    (fetchKey : String → Except Nat SasKey) (cache : SasCache)
    (resourceId : String) (accessId : Option String) :
    Except PyError (SasKey × SasCache) :=
  let resolved : Except PyError String :=
    match accessId with
    | some aid => .ok aid
    | none =>
        match get_best_access now meId accesses with
        | none => .error (.attributeError "NoneType object has no attribute get")
        | some access =>
            match access.accessSharingId with
            | some aid => .ok aid
            | none =>
                .error (.assertionError "Could not find access rights for current user.")
  match resolved with
  | .error e => .error e
  | .ok aid =>
      match fetchKey aid with
      | .error status => .error (.httpError status)
      | .ok data =>
          let data2 := { data with accessId := some aid }
          .ok (data2, sasCacheSet cache resourceId data2)

/-- `DataFabricAPI.get_sas` (data.py):
`self.get_sas_cached(resourceId) or await self.get_sas_new(...)`. -/
def get_sas (now : Int) (meId : String) (accesses : List Access)
    (fetchKey : String → Except Nat SasKey) (cache : SasCache)
    (resourceId : String) (accessId : Option String) :
    Except PyError (SasKey × SasCache) :=
  match get_sas_cached now cache resourceId with
  | (some sas, cache2) => .ok (sas, cache2)
  | (none, cache2) =>
      get_sas_new now meId accesses fetchKey cache2 resourceId accessId

/-- One key-template record as returned by
`DataFabricAPI.get_keytemplates_df` (data.py): the attribute columns and
the duration column used by `get_keytemplate`. -/
structure KeyTemplate where
  id : String
  attribute1 : Bool
  attribute2 : Bool
  attribute3 : Bool
  attribute4 : Bool
  totalHours : Int
  deriving DecidableEq, Repr

/-- The "level" column added by `get_keytemplates_df` via `_access_levels`. -/
def KeyTemplate.level (k : KeyTemplate) : Nat :=
  accessLevel k.attribute1 k.attribute2 k.attribute3 k.attribute4

/-- The row mask of `DataFabricAPI._filter_key_attributes` (data.py):
exact equality of all four attributes when `exact_match`, otherwise
`~(~attr & requested)` for each of the four privileges
(attribute1 = read, attribute2 = write, attribute3 = delete,
attribute4 = list). -/
def keyMask (read write list_ delete : Bool) (exact_match : Bool)
    (k : KeyTemplate) : Bool :=
  if exact_match then
    (k.attribute1 == read) && (k.attribute2 == write) &&
      (k.attribute3 == delete) && (k.attribute4 == list_)
  else
    !(!k.attribute1 && read) && !(!k.attribute2 && write) &&
      !(!k.attribute3 && delete) && !(!k.attribute4 && list_)

/-- `DataFabricAPI._filter_key_attributes` (data.py): keep the rows
passing `keyMask`. -/
def filter_key_attributes (keys : List KeyTemplate)
    (read write list_ delete : Bool) (exact_match : Bool) : List KeyTemplate :=
  keys.filter (keyMask read write list_ delete exact_match)

/-- Strict lexicographic order on a pair of sort keys (the order in which
`sort_values` with two ascending keys ranks distinct rows). -/
def lexLt (p q : Int × Int) : Bool :=
  p.1 < q.1 || (p.1 == q.1 && p.2 < q.2)

/-- `sort_values([k1, k2]).iloc[0]`: the first row that is minimal for the
lexicographic order of the two sort keys, starting from row `a` followed
by `rest`. -/
def minByKey (key : KeyTemplate → Int × Int) (a : KeyTemplate)
    (rest : List KeyTemplate) : KeyTemplate :=
  rest.foldl (fun best x => if lexLt (key x) (key best) then x else best) a

/-- The error message built by `get_keytemplate` (data.py) when no
template matches: the requested privilege names joined with `+`. -/
def keytemplateErrorMsg (read write list_ delete : Bool) : String :=
  let names := ["read", "write", "delete", "list"]
  let flags := [read, write, delete, list_]
  let requested := (List.zip names flags).filterMap
    (fun p => if p.2 then some p.1 else none)
  "Cannot find key template with " ++ String.intercalate "+" requested ++
    " access privileges."

/-- `DataFabricAPI.get_keytemplate` (data.py): assert at least one
privilege is requested; filter the templates by privilege; fail with a
RuntimeError naming the requested privileges when none match; otherwise
restrict to templates with `totalHours - duration <= 0` and take the first
row of the sort by (level asc, totalHours desc), falling back to the first
row of the sort by (level asc, totalHours asc) over all privileged
templates when none is within the duration. -/
def get_keytemplate (templates : List KeyTemplate)
    (read write list_ delete : Bool) (duration : Int)
    (exact_privileges : Bool) : Except PyError KeyTemplate :=
  if !(read || write || delete || list_) then
    .error (.assertionError
      "You must request at least one access privilege from (read, write, list, delete).")
  else
    match filter_key_attributes templates read write list_ delete exact_privileges with
    | [] => .error (.runtimeError (keytemplateErrorMsg read write list_ delete))
    | p :: ps =>
        match (p :: ps).filter (fun k => decide (k.totalHours - duration ≤ 0)) with
        | [] => .ok (minByKey (fun k => ((k.level : Int), k.totalHours)) p ps)
        | q :: qs => .ok (minByKey (fun k => ((k.level : Int), -k.totalHours)) q qs)

/-! Identity module (identity.py). -/

def MICROSOFT_AUTHORITY_HOSTNAME : String := "https://login.microsoftonline.com"

def VERACITY_AUTHORITY_HOSTNAME : String := "https://login.veracity.com"

def DEFAULT_TENANT_ID : String := "dnvglb2cprod.onmicrosoft.com"

def DEFAULT_POLICY : String := "b2c_1a_signinwithadfsidp"

def VERACITY_SERVICE_SCOPE : String :=
  "https://dnvglb2cprod.onmicrosoft.com/dfc0f96d-1c85-4334-a600-703a89a32a4c"

def DATAFABRIC_SCOPE : String :=
  "https://dnvglb2cprod.onmicrosoft.com/dfba9693-546d-4300-bcd7-d8d525bdff38"

/-- The `ALLOWED_SCOPES` dict of identity.py: lookup of a short-hand scope
name (`s in ALLOWED_SCOPES` / `ALLOWED_SCOPES[s]`). -/
def lookupAllowedScope (s : String) : Option String :=
  if s = "veracity" then some VERACITY_SERVICE_SCOPE
  else if s = "veracity_service" then some VERACITY_SERVICE_SCOPE
  else if s = "veracity_datafabric" then some DATAFABRIC_SCOPE
  else none

/-- The per-element replacement in `expand_veracity_scopes` (identity.py):
`ALLOWED_SCOPES[s] + suffix if s in ALLOWED_SCOPES else s`, where the
suffix is `/user_impersonation` when the user is present and `/.default`
otherwise. -/
def expandScope (user_present : Bool) (s : String) : String :=
  match lookupAllowedScope s with
  | some base =>
      base ++ (if user_present then "/user_impersonation" else "/.default")
  | none => s

/-- `expand_veracity_scopes` (identity.py): `None` passes through;
otherwise every element of the scope list is replaced by `expandScope`. -/
def expand_veracity_scopes (scopes : Option (List String))
    (user_present : Bool) : Option (List String) :=
  match scopes with
  | none => none
  | some l => some (l.map (expandScope user_present))

/-- A `datetime.date`, with `fromisoformat("2021-05-01") = ⟨2021, 5, 1⟩`. -/
structure PyDate where
  year : Nat
  month : Nat
  day : Nat
  deriving DecidableEq, Repr

/-- `<=` on dates: lexicographic on (year, month, day). -/
def PyDate.le (a b : PyDate) : Bool :=
  a.year < b.year ||
    (a.year == b.year &&
      (a.month < b.month || (a.month == b.month && a.day ≤ b.day)))

/-- The `DEADLINE` constant of `Authority.hostname` (identity.py),
`date.fromisoformat("2021-05-01")`. -/
def AUTHORITY_DEADLINE : PyDate := ⟨2021, 5, 1⟩

/-- `Authority.hostname` (identity.py): the Veracity hostname from the
deadline date onward (`date.today() >= DEADLINE`), the Microsoft hostname
before it. -/
def authority_hostname (today : PyDate) : String :=
  if PyDate.le AUTHORITY_DEADLINE today then VERACITY_AUTHORITY_HOSTNAME
  else MICROSOFT_AUTHORITY_HOSTNAME

/-- `Authority.url` (identity.py): `hostname/tenant`, with `/policy`
appended when the hostname is the Veracity one and the policy is not
`None`. -/
def authority_url (today : PyDate) (tenant : String)
    (policy : Option String) : String :=
  let myurl := authority_hostname today ++ "/" ++ tenant
  if authority_hostname today == VERACITY_AUTHORITY_HOSTNAME then
    match policy with
    | some p => myurl ++ "/" ++ p
    | none => myurl
  else myurl

/-- Python's `str.startswith`, as a prefix test on the character lists. -/
def strStartswith (s pre : String) : Bool :=
  pre.data.isPrefixOf s.data

/-- `Authority.require_policy_injection` (identity.py):
`self.url.startswith(MICROSOFT_AUTHORITY_HOSTNAME)`. -/
def require_policy_injection (today : PyDate) (tenant : String)
    (policy : Option String) : Bool :=
  strStartswith (authority_url today tenant policy) MICROSOFT_AUTHORITY_HOSTNAME

/-- An authorization response: the query-parameter dict received on the
redirect.  `"code" in auth_response` is modelled as `code ≠ none`, likewise
for `state`. -/
structure AuthResponse where
  code : Option String
  state : Option String
  deriving DecidableEq, Repr

/-- An auth-code flow as produced by `initiate_auth_code_flow`
(identity.py): it always carries a `state` entry. -/
structure AuthFlow where
  state : String
  deriving DecidableEq, Repr

/-- `IdentityService.acquire_token_by_auth_code_flow` (identity.py):
raise `IdentityError` when the response has no code, has no state, or has
a state different from the flow's; otherwise delegate to the OIDC
client's `obtain_token_by_auth_code_flow` (abstracted as `obtain`). -/
def acquire_token_by_auth_code_flow (obtain : AuthFlow → AuthResponse → String)
    (flow : AuthFlow) (auth_response : AuthResponse) : Except PyError String :=
  match auth_response.code with
  | none =>
      .error (.identityError "Authentication server did not send an authorization code.")
  | some _ =>
      match auth_response.state with
      | none =>
          .error (.identityError "Authentication response does not include OAuth state.")
      | some s =>
          if s ≠ flow.state then
            .error (.identityError
              "Authentication response OAuth state does not match the request.")
          else
            .ok (obtain flow auth_response)

/-! Sample data used to exercise the definitions on concrete inputs. -/

/-- The empty SAS cache. -/
def emptyCache : SasCache := fun _ => none

/-- A SAS key with a given expiry and expiry flag. -/
def sampleSas (expiry : Int) (expired : Bool) : SasKey :=
  ⟨"key", expiry, expired, false, none⟩

/-- A cache holding one stale entry for container "c1": expiry one day in
the past and not flagged refreshed. -/
def staleCache : SasCache :=
  fun k => if k = "c1" then some (sampleSas (-86400) false) else none

/-- An access grant for a given user with given privilege attributes. -/
def sampleAccess (uid : String) (a1 a2 a3 a4 : Bool) (sid : String) : Access :=
  ⟨uid, true, 0, a1, a2, a3, a4, some sid⟩

/-- A level-1 grant (write only) for user "me". -/
def wA1 : Access := sampleAccess "me" false true false false "share1"

/-- A level-4 grant (read only) for user "me". -/
def wA2 : Access := sampleAccess "me" true false false false "share2"

/-- A key template with read, write and list privileges, 24 hours. -/
def wT1 : KeyTemplate := ⟨"t1", true, true, false, true, 24⟩

/-- A key template with read privileges only, 2 hours. -/
def wT2 : KeyTemplate := ⟨"t2", true, false, false, false, 2⟩

/-- A key template with read privileges only, 1 hour. -/
def wT3 : KeyTemplate := ⟨"t3", true, false, false, false, 1⟩

/-! Theorems. -/

set_option maxRecDepth 10000

lemma accessLevel_eq (a1 a2 a3 a4 : Bool) :
    accessLevel a1 a2 a3 a4 =
      4 * a1.toNat + 1 * a2.toNat + 8 * a3.toNat + 2 * a4.toNat := by
  cases a1 <;> cases a2 <;> cases a3 <;> cases a4 <;> rfl

/-- C2: for every access or key-template record, the level score is
`4*read + 1*write + 8*delete + 2*list` (attribute1 = read, attribute2 =
write, attribute3 = delete, attribute4 = list); in particular write-only
scores 1, read+list scores 6, read+write+list scores 7, all four score 15,
and list-only scores 2. -/
theorem access_level_formula :
    (∀ a : Access, a.level =
      4 * a.attribute1.toNat + 1 * a.attribute2.toNat +
        8 * a.attribute3.toNat + 2 * a.attribute4.toNat) ∧
    (∀ k : KeyTemplate, k.level =
      4 * k.attribute1.toNat + 1 * k.attribute2.toNat +
        8 * k.attribute3.toNat + 2 * k.attribute4.toNat) ∧
    accessLevel false true false false = 1 ∧
    accessLevel true false false true = 6 ∧
    accessLevel true true false true = 7 ∧
    accessLevel true true true true = 15 ∧
    accessLevel false false false true = 2 :=
  ⟨fun a => accessLevel_eq a.attribute1 a.attribute2 a.attribute3 a.attribute4,
   fun k => accessLevel_eq k.attribute1 k.attribute2 k.attribute3 k.attribute4,
   rfl, rfl, rfl, rfl, rfl⟩

/-- C4: with `exact_privileges=False`, `_filter_key_attributes` keeps a
template exactly when for each privilege p the boolean
`not template[p] and requested[p]` is false (over-granting allowed, under-
granting not); the template (read, write, list, no delete) satisfies a
request for write alone and for read+list, but no request with delete. -/
theorem filter_key_attributes_nonexact :
    (∀ (keys : List KeyTemplate) (read write list_ delete : Bool)
        (k : KeyTemplate),
      k ∈ filter_key_attributes keys read write list_ delete false ↔
        k ∈ keys ∧ (!k.attribute1 && read) = false ∧
          (!k.attribute2 && write) = false ∧
          (!k.attribute3 && delete) = false ∧
          (!k.attribute4 && list_) = false) ∧
    keyMask false true false false false wT1 = true ∧
    keyMask true false true false false wT1 = true ∧
    (∀ read write list_ : Bool, keyMask read write list_ true false wT1 = false) := by
  refine ⟨?_, rfl, rfl, by decide⟩
  intro keys read write list_ delete k
  simp only [filter_key_attributes, List.mem_filter, keyMask, if_neg Bool.false_ne_true,
    Bool.and_eq_true, Bool.not_eq_true']
  constructor
  · rintro ⟨hk, ⟨⟨h1, h2⟩, h3⟩, h4⟩
    exact ⟨hk, h1, h2, h3, h4⟩
  · rintro ⟨hk, h1, h2, h3, h4⟩
    exact ⟨hk, ⟨⟨h1, h2⟩, h3⟩, h4⟩

lemma lookupAllowedScope_cases (s : String) :
    lookupAllowedScope s = none ∨
      lookupAllowedScope s = some VERACITY_SERVICE_SCOPE ∨
      lookupAllowedScope s = some DATAFABRIC_SCOPE := by
  unfold lookupAllowedScope
  split
  · exact Or.inr (Or.inl rfl)
  · split
    · exact Or.inr (Or.inl rfl)
    · split
      · exact Or.inr (Or.inr rfl)
      · exact Or.inl rfl

lemma lookupAllowedScope_expanded (u : Bool) (base : String)
    (h : base = VERACITY_SERVICE_SCOPE ∨ base = DATAFABRIC_SCOPE) :
    lookupAllowedScope
      (base ++ (if u then "/user_impersonation" else "/.default")) = none := by
  rcases h with h | h <;> subst h <;> cases u <;> decide

lemma expandScope_idem (u : Bool) (s : String) :
    expandScope u (expandScope u s) = expandScope u s := by
  rcases lookupAllowedScope_cases s with h | h | h
  · simp [expandScope, h]
  · simp [expandScope, h, lookupAllowedScope_expanded u _ (Or.inl rfl)]
  · simp [expandScope, h, lookupAllowedScope_expanded u _ (Or.inr rfl)]

/-- C7: scope expansion is a pure function of the scope list and the
user-present flag; each known logical name is replaced by its mapped
audience URI with `/user_impersonation` appended when interactive and
`/.default` when not; any name outside the mapping passes through
unchanged; expansion is idempotent on its own output. -/
theorem expand_scopes_spec :
    (∀ u : Bool, expandScope u "veracity" =
      VERACITY_SERVICE_SCOPE ++
        (if u then "/user_impersonation" else "/.default")) ∧
    (∀ u : Bool, expandScope u "veracity_service" =
      VERACITY_SERVICE_SCOPE ++
        (if u then "/user_impersonation" else "/.default")) ∧
    (∀ u : Bool, expandScope u "veracity_datafabric" =
      DATAFABRIC_SCOPE ++
        (if u then "/user_impersonation" else "/.default")) ∧
    (∀ (u : Bool) (s : String), lookupAllowedScope s = none →
      expandScope u s = s) ∧
    (∀ (u : Bool) (scopes : Option (List String)),
      expand_veracity_scopes (expand_veracity_scopes scopes u) u =
        expand_veracity_scopes scopes u) := by
  refine ⟨fun u => rfl, fun u => rfl, fun u => rfl, ?_, ?_⟩
  · intro u s h
    simp [expandScope, h]
  · intro u scopes
    cases scopes with
    | none => rfl
    | some l =>
        simp [expand_veracity_scopes, Function.comp, expandScope_idem]

/-- Witness for C7: the unknown scope name "openid" passes through. -/
theorem expand_scopes_spec_witness :
    lookupAllowedScope "openid" = none ∧ expandScope true "openid" = "openid" :=
  ⟨by decide, expand_scopes_spec.2.2.2.1 true "openid" (by decide)⟩

/-- C9: authority selection is a conditional on the current date against
the fixed cutover 2021-05-01 — before it, the hostname is the
Microsoft-hosted one and policy injection is required; on or after it, the
hostname is the Veracity one, the policy is embedded in the authority URL
path, and no injection is required.  Stated at the constructor defaults
(tenant `DEFAULT_TENANT_ID`, policy `DEFAULT_POLICY`). -/
theorem authority_cutover (today : PyDate) :
    (PyDate.le AUTHORITY_DEADLINE today = false →
      authority_hostname today = MICROSOFT_AUTHORITY_HOSTNAME ∧
      authority_url today DEFAULT_TENANT_ID (some DEFAULT_POLICY) =
        MICROSOFT_AUTHORITY_HOSTNAME ++ "/" ++ DEFAULT_TENANT_ID ∧
      require_policy_injection today DEFAULT_TENANT_ID (some DEFAULT_POLICY) = true) ∧
    (PyDate.le AUTHORITY_DEADLINE today = true →
      authority_hostname today = VERACITY_AUTHORITY_HOSTNAME ∧
      authority_url today DEFAULT_TENANT_ID (some DEFAULT_POLICY) =
        VERACITY_AUTHORITY_HOSTNAME ++ "/" ++ DEFAULT_TENANT_ID ++ "/" ++ DEFAULT_POLICY ∧
      require_policy_injection today DEFAULT_TENANT_ID (some DEFAULT_POLICY) = false) := by
  constructor
  · intro h
    have hh : authority_hostname today = MICROSOFT_AUTHORITY_HOSTNAME := by
      simp [authority_hostname, h]
    have hu : authority_url today DEFAULT_TENANT_ID (some DEFAULT_POLICY) =
        MICROSOFT_AUTHORITY_HOSTNAME ++ "/" ++ DEFAULT_TENANT_ID := by
      rw [authority_url, hh]
      decide
    refine ⟨hh, hu, ?_⟩
    rw [require_policy_injection, hu]
    decide
  · intro h
    have hh : authority_hostname today = VERACITY_AUTHORITY_HOSTNAME := by
      simp [authority_hostname, h]
    have hu : authority_url today DEFAULT_TENANT_ID (some DEFAULT_POLICY) =
        VERACITY_AUTHORITY_HOSTNAME ++ "/" ++ DEFAULT_TENANT_ID ++ "/" ++ DEFAULT_POLICY := by
      rw [authority_url, hh]
      decide
    refine ⟨hh, hu, ?_⟩
    rw [require_policy_injection, hu]
    decide

/-- Witness for C9: 2021-04-30 is before the cutover (Microsoft
authority, injection required), 2021-05-01 is on it (Veracity authority,
no injection). -/
theorem authority_cutover_witness :
    (PyDate.le AUTHORITY_DEADLINE ⟨2021, 4, 30⟩ = false ∧
      authority_hostname ⟨2021, 4, 30⟩ = MICROSOFT_AUTHORITY_HOSTNAME) ∧
    (PyDate.le AUTHORITY_DEADLINE ⟨2021, 5, 1⟩ = true ∧
      authority_hostname ⟨2021, 5, 1⟩ = VERACITY_AUTHORITY_HOSTNAME) :=
  ⟨⟨by decide, ((authority_cutover ⟨2021, 4, 30⟩).1 (by decide)).1⟩,
   ⟨by decide, ((authority_cutover ⟨2021, 5, 1⟩).2 (by decide)).1⟩⟩

/-- C6: `acquire_token_by_auth_code_flow` raises `IdentityError` — and
never returns a token — whenever the authorization response lacks a code,
lacks a state, or carries a state different from the flow's state. -/
theorem auth_code_flow_rejects (obtain : AuthFlow → AuthResponse → String)
    (flow : AuthFlow) (resp : AuthResponse)
    (h : resp.code = none ∨ resp.state = none ∨ resp.state ≠ some flow.state) :
    (∃ msg, acquire_token_by_auth_code_flow obtain flow resp =
      .error (.identityError msg)) ∧
    ∀ t, acquire_token_by_auth_code_flow obtain flow resp ≠ .ok t := by
  have herr : ∃ msg, acquire_token_by_auth_code_flow obtain flow resp =
      .error (.identityError msg) := by
    rcases hc : resp.code with _ | c
    · exact ⟨"Authentication server did not send an authorization code.",
        by simp [acquire_token_by_auth_code_flow, hc]⟩
    · rcases hs : resp.state with _ | s
      · exact ⟨"Authentication response does not include OAuth state.",
          by simp [acquire_token_by_auth_code_flow, hc, hs]⟩
      · have hne : s ≠ flow.state := by
          rcases h with h | h | h
          · rw [hc] at h; cases h
          · rw [hs] at h; cases h
          · rw [hs] at h
            intro e
            exact h (by rw [e])
        exact ⟨"Authentication response OAuth state does not match the request.",
          by simp [acquire_token_by_auth_code_flow, hc, hs, hne]⟩
  obtain ⟨msg, hm⟩ := herr
  refine ⟨⟨msg, hm⟩, ?_⟩
  intro t ht
  rw [hm] at ht
  cases ht

/-- Witness for C6: a response carrying a code but a mismatching state is
rejected with an identity error. -/
theorem auth_code_flow_rejects_witness :
    ((⟨some "authcode", some "other"⟩ : AuthResponse).code = none ∨
      (⟨some "authcode", some "other"⟩ : AuthResponse).state = none ∨
      (⟨some "authcode", some "other"⟩ : AuthResponse).state ≠
        some (AuthFlow.state ⟨"original"⟩)) ∧
    ((∃ msg, acquire_token_by_auth_code_flow (fun _ _ => "token") ⟨"original"⟩
        ⟨some "authcode", some "other"⟩ = .error (.identityError msg)) ∧
      ∀ t, acquire_token_by_auth_code_flow (fun _ _ => "token") ⟨"original"⟩
        ⟨some "authcode", some "other"⟩ ≠ .ok t) :=
  ⟨by right; right; decide,
   auth_code_flow_rejects (fun _ _ => "token") ⟨"original"⟩
     ⟨some "authcode", some "other"⟩ (by right; right; decide)⟩

/-- C3: `get_sas_cached` returns the cached credential exactly when an
entry exists with `isKeyExpired` false and expiry later than now;
otherwise it returns absent, and when an entry existed but failed the
check it removes it from the cache so an immediately repeated lookup also
returns absent. -/
theorem get_sas_cached_correct (now : Int) (cache : SasCache) (r : String) :
    (∀ sas, (get_sas_cached now cache r).1 = some sas ↔
      cache r = some sas ∧ sas.isKeyExpired = false ∧
        now < sas.sasKeyExpiryTimeUTC) ∧
    (∀ sas, cache r = some sas →
      sas.isKeyExpired = true ∨ sas.sasKeyExpiryTimeUTC ≤ now →
      (get_sas_cached now cache r).1 = none ∧
        (get_sas_cached now cache r).2 r = none ∧
        (get_sas_cached now (get_sas_cached now cache r).2 r).1 = none) := by
  rcases hc : cache r with _ | sas0
  · have hres : get_sas_cached now cache r = (none, cache) := by
      simp [get_sas_cached, hc]
    constructor
    · intro sas
      rw [hres]
      constructor
      · intro he; cases he
      · rintro ⟨he, -, -⟩; cases he
    · intro sas hsas
      cases hsas
  · by_cases hv : sas0.isKeyExpired = false ∧ now < sas0.sasKeyExpiryTimeUTC
    · have hb : (!sas0.isKeyExpired && decide (now < sas0.sasKeyExpiryTimeUTC)) = true := by
        simp [hv.1, hv.2]
      have hres : get_sas_cached now cache r = (some sas0, cache) := by
        simp [get_sas_cached, hc, hb]
      constructor
      · intro sas
        rw [hres]
        constructor
        · intro he
          injection he with he
          subst he
          exact ⟨rfl, hv.1, hv.2⟩
        · rintro ⟨he, -, -⟩
          exact he
      · intro sas hsas hbad
        injection hsas with hsas
        subst hsas
        rcases hbad with hbad | hbad
        · rw [hv.1] at hbad; cases hbad
        · exact absurd hv.2 (not_lt.mpr hbad)
    · have hb : (!sas0.isKeyExpired && decide (now < sas0.sasKeyExpiryTimeUTC)) = false := by
        rcases Bool.eq_false_or_eq_true sas0.isKeyExpired with he | he
        · simp [he]
        · have hlt : ¬ now < sas0.sasKeyExpiryTimeUTC := fun hlt => hv ⟨he, hlt⟩
          simp [he, hlt]
      have hres : get_sas_cached now cache r = (none, sasCachePop cache r) := by
        simp [get_sas_cached, hc, hb]
      constructor
      · intro sas
        rw [hres]
        constructor
        · intro he; cases he
        · rintro ⟨he, hex, hlt⟩
          injection he with he
          subst he
          exact absurd ⟨hex, hlt⟩ hv
      · intro sas hsas hbad
        have hpop : sasCachePop cache r r = none := by
          simp [sasCachePop]
        refine ⟨by rw [hres], by rw [hres]; exact hpop, ?_⟩
        rw [hres]
        simp [get_sas_cached, hpop]

/-- Witness for C3: a cache entry for "c1" whose expiry is one day in the
past is reported absent, evicted, and absent again on the repeated
lookup. -/
theorem get_sas_cached_correct_witness :
    staleCache "c1" = some (sampleSas (-86400) false) ∧
    ((sampleSas (-86400) false).isKeyExpired = true ∨
      (sampleSas (-86400) false).sasKeyExpiryTimeUTC ≤ 0) ∧
    ((get_sas_cached 0 staleCache "c1").1 = none ∧
      (get_sas_cached 0 staleCache "c1").2 "c1" = none ∧
      (get_sas_cached 0 (get_sas_cached 0 staleCache "c1").2 "c1").1 = none) :=
  ⟨by decide, by decide,
   (get_sas_cached_correct 0 staleCache "c1").2 (sampleSas (-86400) false)
     (by decide) (by decide)⟩

/-- C10: `get_sas_cached` modifies at most the cache entry of the queried
resource — all other keys are unchanged, the cache is entirely unchanged
when there is no entry or a valid one, and only the queried key is popped
when the entry is stale. -/
theorem get_sas_cached_frame (now : Int) (cache : SasCache) (r : String) :
    (∀ k, k ≠ r → (get_sas_cached now cache r).2 k = cache k) ∧
    (cache r = none → (get_sas_cached now cache r).2 = cache) ∧
    (∀ sas, cache r = some sas → sas.isKeyExpired = false →
      now < sas.sasKeyExpiryTimeUTC → (get_sas_cached now cache r).2 = cache) ∧
    (∀ sas, cache r = some sas →
      sas.isKeyExpired = true ∨ sas.sasKeyExpiryTimeUTC ≤ now →
      (get_sas_cached now cache r).2 = sasCachePop cache r) := by
  rcases hc : cache r with _ | sas0
  · have hres : get_sas_cached now cache r = (none, cache) := by
      simp [get_sas_cached, hc]
    refine ⟨fun k _ => by rw [hres], fun _ => by rw [hres], ?_, ?_⟩
    · intro sas hsas
      cases hsas
    · intro sas hsas
      cases hsas
  · by_cases hv : sas0.isKeyExpired = false ∧ now < sas0.sasKeyExpiryTimeUTC
    · have hb : (!sas0.isKeyExpired && decide (now < sas0.sasKeyExpiryTimeUTC)) = true := by
        simp [hv.1, hv.2]
      have hres : get_sas_cached now cache r = (some sas0, cache) := by
        simp [get_sas_cached, hc, hb]
      refine ⟨fun k _ => by rw [hres], ?_, fun _ _ _ _ => by rw [hres], ?_⟩
      · intro hnone
        cases hnone
      · intro sas hsas hbad
        injection hsas with hsas
        subst hsas
        rcases hbad with hbad | hbad
        · rw [hv.1] at hbad; cases hbad
        · exact absurd hv.2 (not_lt.mpr hbad)
    · have hb : (!sas0.isKeyExpired && decide (now < sas0.sasKeyExpiryTimeUTC)) = false := by
        rcases Bool.eq_false_or_eq_true sas0.isKeyExpired with he | he
        · simp [he]
        · have hlt : ¬ now < sas0.sasKeyExpiryTimeUTC := fun hlt => hv ⟨he, hlt⟩
          simp [he, hlt]
      have hres : get_sas_cached now cache r = (none, sasCachePop cache r) := by
        simp [get_sas_cached, hc, hb]
      refine ⟨?_, ?_, ?_, fun _ _ _ => by rw [hres]⟩
      · intro k hk
        rw [hres]
        simp [sasCachePop, hk]
      · intro hnone
        cases hnone
      · intro sas hsas hex hlt
        injection hsas with hsas
        subst hsas
        exact absurd ⟨hex, hlt⟩ hv

/-- Witness for C10: evicting the stale "c1" entry leaves the entry for
"c2" untouched. -/
theorem get_sas_cached_frame_witness :
    (("c2" : String) ≠ "c1") ∧
    (get_sas_cached 0 staleCache "c1").2 "c2" = staleCache "c2" :=
  ⟨by decide, (get_sas_cached_frame 0 staleCache "c1").1 "c2" (by decide)⟩

lemma idxmaxLevel_mem (a : Access) (l : List Access) :
    idxmaxLevel a l = a ∨ idxmaxLevel a l ∈ l := by
  induction l generalizing a with
  | nil => exact Or.inl rfl
  | cons x xs ih =>
      have step : idxmaxLevel a (x :: xs) =
          idxmaxLevel (if a.level < x.level then x else a) xs := rfl
      rw [step]
      rcases ih (if a.level < x.level then x else a) with h | h
      · rw [h]
        by_cases hlt : a.level < x.level
        · rw [if_pos hlt]
          exact Or.inr (List.mem_cons_self x xs)
        · rw [if_neg hlt]
          exact Or.inl rfl
      · exact Or.inr (List.mem_cons_of_mem x h)

lemma idxmaxLevel_le (a : Access) (l : List Access) :
    a.level ≤ (idxmaxLevel a l).level ∧
      ∀ b ∈ l, b.level ≤ (idxmaxLevel a l).level := by
  induction l generalizing a with
  | nil => exact ⟨Nat.le_refl _, fun b hb => absurd hb (List.not_mem_nil b)⟩
  | cons x xs ih =>
      have step : idxmaxLevel a (x :: xs) =
          idxmaxLevel (if a.level < x.level then x else a) xs := rfl
      rw [step]
      obtain ⟨h1, h2⟩ := ih (if a.level < x.level then x else a)
      by_cases hlt : a.level < x.level
      · rw [if_pos hlt] at h1 h2 ⊢
        refine ⟨Nat.le_trans (Nat.le_of_lt hlt) h1, ?_⟩
        intro b hb
        rcases List.mem_cons.mp hb with rfl | hb
        · exact h1
        · exact h2 b hb
      · rw [if_neg hlt] at h1 h2 ⊢
        refine ⟨h1, ?_⟩
        intro b hb
        rcases List.mem_cons.mp hb with rfl | hb
        · exact Nat.le_trans (Nat.le_of_not_lt hlt) h1
        · exact h2 b hb

/-- C1: `get_best_access` filters the container's access grants to those
of the current principal that are auto-refreshed or not yet expired, and
returns a grant of maximum level among them; with no qualifying grant it
returns `none`, not an error. -/
theorem get_best_access_correct (now : Int) (meId : String)
    (accesses : List Access) :
    (∀ a, a ∈ accesses.filter (accessMask now meId) ↔
      a ∈ accesses ∧ a.userId = meId ∧
        (a.autoRefreshed = true ∨ now ≤ a.keyExpiryTimeUTC)) ∧
    (get_best_access now meId accesses = none ↔
      accesses.filter (accessMask now meId) = []) ∧
    (∀ a, get_best_access now meId accesses = some a →
      a ∈ accesses.filter (accessMask now meId) ∧
        ∀ b ∈ accesses.filter (accessMask now meId), b.level ≤ a.level) := by
  refine ⟨?_, ?_, ?_⟩
  · intro a
    simp only [List.mem_filter, accessMask, Bool.and_eq_true, Bool.or_eq_true,
      decide_eq_true_eq, beq_iff_eq, ge_iff_le]
    tauto
  · unfold get_best_access
    cases hf : accesses.filter (accessMask now meId) <;> simp
  · intro a ha
    unfold get_best_access at ha
    cases hf : accesses.filter (accessMask now meId) with
    | nil =>
        rw [hf] at ha
        cases ha
    | cons a0 rest =>
        rw [hf] at ha
        injection ha with ha
        subst ha
        refine ⟨?_, ?_⟩
        · rcases idxmaxLevel_mem a0 rest with h | h
          · rw [h]
            exact List.mem_cons_self _ _
          · exact List.mem_cons_of_mem _ h
        · intro b hb
          rcases List.mem_cons.mp hb with hb | hb
          · rw [hb]
            exact (idxmaxLevel_le a0 rest).1
          · exact (idxmaxLevel_le a0 rest).2 b hb

/-- Witness for C1: between a level-1 and a level-4 grant for the current
user, the level-4 grant is selected, and it is maximal in the filtered
set. -/
theorem get_best_access_correct_witness :
    get_best_access 0 "me" [wA1, wA2] = some wA2 ∧
    (wA2 ∈ List.filter (accessMask 0 "me") [wA1, wA2] ∧
      ∀ b ∈ List.filter (accessMask 0 "me") [wA1, wA2], b.level ≤ wA2.level) :=
  ⟨by decide,
   (get_best_access_correct 0 "me" [wA1, wA2]).2.2 wA2 (by decide)⟩

/-- C8 (code bug): when `get_sas` is called without an explicit access ID,
no valid cached SAS entry exists and `get_best_access` finds no grant, the
call fails — but with Python's `AttributeError` from `None.get(...)` at
the line `access_id = access.get("accessSharingId")`, not with the
`AssertionError` of the assert two lines below, which is unreachable in
this scenario. -/
theorem get_sas_exhausted_attribute_error (now : Int) (meId : String)
    (accesses : List Access) (fetchKey : String → Except Nat SasKey)
    (cache : SasCache) (r : String)
    (hcache : (get_sas_cached now cache r).1 = none)
    (hbest : get_best_access now meId accesses = none) :
    get_sas now meId accesses fetchKey cache r none =
      .error (.attributeError "NoneType object has no attribute get") := by
  rcases hgc : get_sas_cached now cache r with ⟨res, cache2⟩
  rw [hgc] at hcache
  simp only at hcache
  subst hcache
  unfold get_sas
  rw [hgc]
  unfold get_sas_new
  rw [hbest]

/-- Witness for C8: empty cache, no grants at all. -/
theorem get_sas_exhausted_attribute_error_witness :
    (get_sas_cached 0 emptyCache "c1").1 = none ∧
    get_best_access 0 "me" [] = none ∧
    get_sas 0 "me" [] (fun _ => Except.error 500) emptyCache "c1" none =
      .error (.attributeError "NoneType object has no attribute get") :=
  ⟨rfl, rfl,
   get_sas_exhausted_attribute_error 0 "me" [] (fun _ => Except.error 500)
     emptyCache "c1" rfl rfl⟩

lemma lexLt_iff (p q : Int × Int) :
    lexLt p q = true ↔ p.1 < q.1 ∨ (p.1 = q.1 ∧ p.2 < q.2) := by
  simp [lexLt]

lemma lexLt_false_iff (p q : Int × Int) :
    lexLt p q = false ↔ q.1 < p.1 ∨ (p.1 = q.1 ∧ q.2 ≤ p.2) := by
  rw [← Bool.not_eq_true, lexLt_iff]
  constructor
  · intro h
    by_cases he : p.1 = q.1
    · refine Or.inr ⟨he, ?_⟩
      by_contra hlt
      exact h (Or.inr ⟨he, by omega⟩)
    · refine Or.inl ?_
      by_contra hge
      exact h (Or.inl (by omega))
  · rintro (h | ⟨he, hle⟩) (hc | ⟨hce, hclt⟩) <;> omega

lemma lexLt_false_trans {p q r : Int × Int} (h1 : lexLt p q = false)
    (h2 : lexLt q r = false) : lexLt p r = false := by
  rw [lexLt_false_iff] at h1 h2 ⊢
  rcases h1 with h1 | ⟨h1a, h1b⟩ <;> rcases h2 with h2 | ⟨h2a, h2b⟩ <;>
    [exact Or.inl (by omega); exact Or.inl (by omega);
     exact Or.inl (by omega); exact Or.inr (by constructor <;> omega)]

lemma lexLt_false_of_lt {x a m : Int × Int} (h1 : lexLt x a = true)
    (h2 : lexLt x m = false) : lexLt a m = false := by
  rw [lexLt_iff] at h1
  rw [lexLt_false_iff] at h2 ⊢
  rcases h1 with h1 | ⟨h1a, h1b⟩ <;> rcases h2 with h2 | ⟨h2a, h2b⟩ <;>
    [exact Or.inl (by omega); exact Or.inl (by omega);
     exact Or.inl (by omega); exact Or.inr (by constructor <;> omega)]

lemma minByKey_mem (key : KeyTemplate → Int × Int) (a : KeyTemplate)
    (l : List KeyTemplate) : minByKey key a l = a ∨ minByKey key a l ∈ l := by
  induction l generalizing a with
  | nil => exact Or.inl rfl
  | cons x xs ih =>
      have step : minByKey key a (x :: xs) =
          minByKey key (if lexLt (key x) (key a) then x else a) xs := rfl
      rw [step]
      rcases ih (if lexLt (key x) (key a) then x else a) with h | h
      · rw [h]
        by_cases hlt : lexLt (key x) (key a) = true
        · rw [if_pos hlt]
          exact Or.inr (List.mem_cons_self x xs)
        · rw [if_neg hlt]
          exact Or.inl rfl
      · exact Or.inr (List.mem_cons_of_mem x h)

lemma minByKey_le (key : KeyTemplate → Int × Int) (a : KeyTemplate)
    (l : List KeyTemplate) :
    lexLt (key a) (key (minByKey key a l)) = false ∧
      ∀ b ∈ l, lexLt (key b) (key (minByKey key a l)) = false := by
  induction l generalizing a with
  | nil =>
      refine ⟨?_, fun b hb => absurd hb (List.not_mem_nil b)⟩
      rw [lexLt_false_iff]
      exact Or.inr ⟨rfl, le_refl _⟩
  | cons x xs ih =>
      have step : minByKey key a (x :: xs) =
          minByKey key (if lexLt (key x) (key a) then x else a) xs := rfl
      rw [step]
      by_cases hlt : lexLt (key x) (key a) = true
      · rw [if_pos hlt]
        obtain ⟨h1, h2⟩ := ih x
        refine ⟨lexLt_false_of_lt hlt h1, ?_⟩
        intro b hb
        rcases List.mem_cons.mp hb with hb | hb
        · rw [hb]
          exact h1
        · exact h2 b hb
      · have hlt' : lexLt (key x) (key a) = false := Bool.eq_false_iff.mpr hlt
        rw [if_neg hlt]
        obtain ⟨h1, h2⟩ := ih a
        refine ⟨h1, ?_⟩
        intro b hb
        rcases List.mem_cons.mp hb with hb | hb
        · rw [hb]
          exact lexLt_false_trans hlt' h1
        · exact h2 b hb

lemma get_keytemplate_of_req (templates : List KeyTemplate)
    (read write list_ delete : Bool) (duration : Int) (exact_privileges : Bool)
    (hreq : (read || write || delete || list_) = true) :
    get_keytemplate templates read write list_ delete duration exact_privileges =
      match filter_key_attributes templates read write list_ delete exact_privileges with
      | [] => .error (.runtimeError (keytemplateErrorMsg read write list_ delete))
      | p :: ps =>
          match (p :: ps).filter (fun k => decide (k.totalHours - duration ≤ 0)) with
          | [] => .ok (minByKey (fun k => ((k.level : Int), k.totalHours)) p ps)
          | q :: qs => .ok (minByKey (fun k => ((k.level : Int), -k.totalHours)) q qs) := by
  unfold get_keytemplate
  rw [hreq]
  rfl

/-- C5: among templates satisfying the requested privileges,
`get_keytemplate` returns the lowest-level template whose duration is the
longest not exceeding the requested duration; with no qualifying template
within the ceiling it returns the lowest-level, lowest-duration qualifying
template; with no qualifying template at all it fails with the
no-matching-template error naming the requested privileges. -/
theorem get_keytemplate_selection (templates : List KeyTemplate)
    (read write list_ delete : Bool) (duration : Int) (exact_privileges : Bool)
    (hreq : (read || write || delete || list_) = true) :
    (filter_key_attributes templates read write list_ delete exact_privileges = [] →
      get_keytemplate templates read write list_ delete duration exact_privileges =
        .error (.runtimeError (keytemplateErrorMsg read write list_ delete))) ∧
    (filter_key_attributes templates read write list_ delete exact_privileges ≠ [] →
      ∃ r, get_keytemplate templates read write list_ delete duration exact_privileges =
        .ok r) ∧
    (∀ r, get_keytemplate templates read write list_ delete duration exact_privileges =
        .ok r →
      r ∈ filter_key_attributes templates read write list_ delete exact_privileges ∧
      ((∃ k ∈ filter_key_attributes templates read write list_ delete exact_privileges,
          k.totalHours ≤ duration) →
        r.totalHours ≤ duration ∧
        ∀ t ∈ filter_key_attributes templates read write list_ delete exact_privileges,
          t.totalHours ≤ duration →
            r.level < t.level ∨ (r.level = t.level ∧ t.totalHours ≤ r.totalHours)) ∧
      ((∀ k ∈ filter_key_attributes templates read write list_ delete exact_privileges,
          ¬ k.totalHours ≤ duration) →
        ∀ t ∈ filter_key_attributes templates read write list_ delete exact_privileges,
          r.level < t.level ∨ (r.level = t.level ∧ r.totalHours ≤ t.totalHours))) := by
  rw [get_keytemplate_of_req templates read write list_ delete duration
    exact_privileges hreq]
  cases hP : filter_key_attributes templates read write list_ delete exact_privileges with
  | nil =>
      refine ⟨fun _ => rfl, fun h => absurd rfl h, ?_⟩
      intro r hr
      cases hr
  | cons p ps =>
      dsimp only
      cases hQ : (p :: ps).filter (fun k => decide (k.totalHours - duration ≤ 0)) with
      | nil =>
          dsimp only
          have hempty : ∀ x, x ∈ p :: ps → ¬ x.totalHours ≤ duration := by
            intro x hx hxd
            have hmem : x ∈ (p :: ps).filter
                (fun k => decide (k.totalHours - duration ≤ 0)) :=
              List.mem_filter.mpr ⟨hx, decide_eq_true (by omega)⟩
            rw [hQ] at hmem
            cases hmem
          refine ⟨?_, ?_, ?_⟩
          · intro h
            cases h
          · intro _
            exact ⟨_, rfl⟩
          intro r hr
          injection hr with hr
          subst hr
          refine ⟨?_, ?_, ?_⟩
          · rcases minByKey_mem (fun k => ((k.level : Int), k.totalHours)) p ps with h | h
            · rw [h]
              exact List.mem_cons_self _ _
            · exact List.mem_cons_of_mem _ h
          · rintro ⟨k, hk, hkd⟩
            exact absurd hkd (hempty k hk)
          · intro _ t ht
            have hle : lexLt ((fun k => ((k.level : Int), k.totalHours)) t)
                ((fun k => ((k.level : Int), k.totalHours))
                  (minByKey (fun k => ((k.level : Int), k.totalHours)) p ps)) = false := by
              rcases List.mem_cons.mp ht with h | h
              · rw [h]
                exact (minByKey_le (fun k => ((k.level : Int), k.totalHours)) p ps).1
              · exact (minByKey_le (fun k => ((k.level : Int), k.totalHours)) p ps).2 t h
            rw [lexLt_false_iff] at hle
            dsimp only at hle
            omega
      | cons q qs =>
          dsimp only
          have hsub : ∀ x, x ∈ q :: qs → x ∈ p :: ps ∧ x.totalHours ≤ duration := by
            intro x hx
            rw [← hQ] at hx
            have h := List.mem_filter.mp hx
            have hd := of_decide_eq_true h.2
            exact ⟨h.1, by omega⟩
          have hsup : ∀ x, x ∈ p :: ps → x.totalHours ≤ duration → x ∈ q :: qs := by
            intro x hx hxd
            rw [← hQ]
            exact List.mem_filter.mpr ⟨hx, decide_eq_true (by omega)⟩
          refine ⟨?_, ?_, ?_⟩
          · intro h
            cases h
          · intro _
            exact ⟨_, rfl⟩
          intro r hr
          injection hr with hr
          subst hr
          have hm : minByKey (fun k => ((k.level : Int), -k.totalHours)) q qs ∈ q :: qs := by
            rcases minByKey_mem (fun k => ((k.level : Int), -k.totalHours)) q qs with h | h
            · rw [h]
              exact List.mem_cons_self _ _
            · exact List.mem_cons_of_mem _ h
          obtain ⟨hmP, hmd⟩ := hsub _ hm
          refine ⟨hmP, ?_, ?_⟩
          · intro _
            refine ⟨hmd, ?_⟩
            intro t ht htd
            have htQ : t ∈ q :: qs := hsup t ht htd
            have hle : lexLt ((fun k => ((k.level : Int), -k.totalHours)) t)
                ((fun k => ((k.level : Int), -k.totalHours))
                  (minByKey (fun k => ((k.level : Int), -k.totalHours)) q qs)) = false := by
              rcases List.mem_cons.mp htQ with h | h
              · rw [h]
                exact (minByKey_le (fun k => ((k.level : Int), -k.totalHours)) q qs).1
              · exact (minByKey_le (fun k => ((k.level : Int), -k.totalHours)) q qs).2 t h
            rw [lexLt_false_iff] at hle
            dsimp only at hle
            omega
          · intro hall
            obtain ⟨hqP, hqd⟩ := hsub q (List.mem_cons_self q qs)
            exact absurd hqd (hall q hqP)

/-- Witness for C5: with read-only templates of 1 h and 2 h and a
read+write+list template of 24 h, a read request with a 2-hour ceiling
selects the read-only 2-hour template. -/
theorem get_keytemplate_selection_witness :
    ((true || false || false || false) = true) ∧
    get_keytemplate [wT1, wT2, wT3] true false false false 2 false = .ok wT2 ∧
    (wT2 ∈ filter_key_attributes [wT1, wT2, wT3] true false false false false ∧
      ((∃ k ∈ filter_key_attributes [wT1, wT2, wT3] true false false false false,
          k.totalHours ≤ 2) →
        wT2.totalHours ≤ 2 ∧
        ∀ t ∈ filter_key_attributes [wT1, wT2, wT3] true false false false false,
          t.totalHours ≤ 2 →
            wT2.level < t.level ∨ (wT2.level = t.level ∧ t.totalHours ≤ wT2.totalHours)) ∧
      ((∀ k ∈ filter_key_attributes [wT1, wT2, wT3] true false false false false,
          ¬ k.totalHours ≤ 2) →
        ∀ t ∈ filter_key_attributes [wT1, wT2, wT3] true false false false false,
          wT2.level < t.level ∨ (wT2.level = t.level ∧ wT2.totalHours ≤ t.totalHours))) :=
  ⟨by decide, by rfl,
   (get_keytemplate_selection [wT1, wT2, wT3] true false false false 2 false
     (by decide)).2.2 wT2 (by rfl)⟩

end Veracity
